import Mathlib

/-!
Verification of the Tunely downloader core against its specification.

The Python sources under `tunely/` are shallowly embedded below:
pure helpers become Lean functions, the stateful download pipeline
becomes explicit state passing over a `St` record together with an
action trace, and network responses are supplied as environment
functions so that every run of the embedded code is deterministic.
-/

namespace Tunely

/-! ## JSON payloads and `Downloader.invoke_url` (downloader.py 204-245) -/

/-- Shape of a parsed JSON payload as far as `invoke_url` inspects it:
`empty` is a falsy payload (`{}` or `null`); `errorObj s m` is a dict whose
`error` key maps to an object with `status` and `message` fields;
`errorMal` is a dict that has an `error` key whose value does not support
the `['error']['status']` / `['error']['message']` lookups; `good` is a
truthy dict without an `error` key. -/
inductive Payload
  | empty
  | errorObj (status msg : String)
  | errorMal
  | good
deriving DecidableEq, Repr

/-- Python truthiness test `not response_json`. -/
def Payload.isFalsy : Payload → Bool
  | .empty => true
  | _ => false

/-- Python membership test `'error' in response_json`. -/
def Payload.hasError : Payload → Bool
  | .errorObj _ _ => true
  | .errorMal => true
  | _ => false

/-- The retry condition of `invoke_url`:
`if not response_json or 'error' in response_json`. -/
def Payload.needsRetry (p : Payload) : Bool :=
  p.isFalsy || p.hasError

/-- The lookups `response_json['error']['status']` and
`response_json['error']['message']` performed by the log interpolation;
`none` means a `KeyError`/`TypeError` is raised. -/
def Payload.errStatusMsg : Payload → Option (String × String)
  | .errorObj s m => some (s, m)
  | _ => none

/-- Outcome of `response.json()` for one HTTP call. -/
inductive ParseResult
  | ok (p : Payload)
  | jsonDecodeError
deriving DecidableEq, Repr

/-- Exceptions the embedded code can raise. -/
inductive PyError
  | keyError
  | jsonDecodeError
deriving DecidableEq, Repr

instance {ε α : Type} [DecidableEq ε] [DecidableEq α] : DecidableEq (Except ε α) :=
  fun a b =>
    match a, b with
    | .error x, .error y =>
      if h : x = y then .isTrue (congrArg Except.error h)
      else .isFalse (fun hh => h (by cases hh; rfl))
    | .ok x, .ok y =>
      if h : x = y then .isTrue (congrArg Except.ok h)
      else .isFalse (fun hh => h (by cases hh; rfl))
    | .error _, .ok _ => .isFalse (fun hh => Except.noConfusion hh)
    | .ok _, .error _ => .isFalse (fun hh => Except.noConfusion hh)

/-- Result of running an invoker: how many HTTP requests were made, the
backoff sleeps performed (in seconds, in order), and the outcome
(a returned payload or a propagated exception). -/
structure InvokeResult where
  calls : Nat
  sleeps : List Nat
  outcome : Except PyError Payload
deriving DecidableEq, Repr

/-- Defensive parse step of `invoke_url` (downloader.py 209-212): a JSON
decode failure synthesizes `{'error': {'status': 'unknown', 'message':
'received an empty response'}}` instead of propagating. -/
def parsePayload : ParseResult → Payload
  | .ok p => p
  | .jsonDecodeError => .errorObj "unknown" "received an empty response"

/-- Embedding of `Downloader.invoke_url` (downloader.py 204-224).
`resp i` is the parse outcome of the `i`-th HTTP request (so `resp
tryCount` corresponds to the request issued at recursion depth
`tryCount`).  The retry guard `try_count < retry_attempts - 1` over
Python ints is written as `tryCount + 1 < retryAttempts`, which is
equivalent for all natural `retryAttempts`.  Both logging statements
interpolate `response_json['error']['status']` and `...['message']`
before anything else happens, so a retry-triggering payload without a
well-formed `error` object raises `KeyError` at that point. -/
def invoke_url (resp : Nat → ParseResult) (retryAttempts : Nat) (tryCount : Nat) :
    InvokeResult :=
  let p := parsePayload (resp tryCount)
  if p.needsRetry then
    match p.errStatusMsg with
    | none => { calls := 1, sleeps := [], outcome := .error .keyError }
    | some _ =>
      if _h : tryCount + 1 < retryAttempts then
        let r := invoke_url resp retryAttempts (tryCount + 1)
        { calls := r.calls + 1, sleeps := 5 :: r.sleeps, outcome := r.outcome }
      else
        { calls := 1, sleeps := [], outcome := .ok p }
  else
    { calls := 1, sleeps := [], outcome := .ok p }
termination_by retryAttempts - tryCount
decreasing_by omega

/-- Embedding of `Downloader.invoke_url_with_params` (downloader.py
226-245): one authenticated GET, one `response.json()` with no handler
around it, no inspection of the payload, no retry and no sleep. -/
def invoke_url_with_params (resp : ParseResult) : InvokeResult :=
  match resp with
  | .ok p => { calls := 1, sleeps := [], outcome := .ok p }
  | .jsonDecodeError => { calls := 1, sleeps := [], outcome := .error .jsonDecodeError }

/-! ## `Track.get_user_saved_tracks` (track.py 22-52) -/

/-- Embedding of the pagination loop of `get_user_saved_tracks`.
`pages limit offset` is the `items` array of the page the saved-tracks
endpoint returns for those query parameters.  The result records every
`(limit, offset)` request issued, in order, together with the
accumulated songs; `none` means the fuel ran out before the loop hit a
short page. -/
def savedTracksLoop {α : Type} (pages : Nat → Nat → List α) :
    Nat → Nat → Option (List (Nat × Nat) × List α)
  | _offset, 0 => none
  | offset, fuel + 1 =>
    let items := pages 50 offset
    if items.length < 50 then
      some ([(50, offset)], items)
    else
      match savedTracksLoop pages (offset + 50) fuel with
      | none => none
      | some (reqs, songs) => some ((50, offset) :: reqs, items ++ songs)

/-- Embedding of `Track.get_user_saved_tracks`: the loop starts at
offset 0 with limit 50. -/
def get_user_saved_tracks {α : Type} (pages : Nat → Nat → List α) (fuel : Nat) :
    Option (List (Nat × Nat) × List α) :=
  savedTracksLoop pages 0 fuel

/-! ## The raw chunk loop of `download_track` (track.py 263-270) -/

/-- Embedding of the chunked read/write loop:
`b = 0; while b < 5: data = stream.read(chunk); f.write(data);
b += 1 if data == b'' else 0`.  `reads i` is the byte chunk returned by
the `i`-th read.  The counter `b` is incremented on an empty read and
left unchanged otherwise — it is never reset.  Returns the total number
of reads performed, or `none` if the fuel ran out first. -/
def chunkLoop (reads : Nat → List Nat) (fuel i b : Nat) : Option Nat :=
  if 5 ≤ b then
    some i
  else
    match fuel with
    | 0 => none
    | fuel + 1 =>
      let data := reads i
      chunkLoop reads fuel (i + 1) (b + (if data = [] then 1 else 0))

/-- Loop that the claim describes instead: count *consecutive* empty
reads, resetting the counter on every non-empty read, and stop at the
fifth consecutive empty read.  Stated from the claim for comparison
with `chunkLoop`. -/
def chunkLoopConsecutive (reads : Nat → List Nat) (fuel i b : Nat) : Option Nat :=
  if 5 ≤ b then
    some i
  else
    match fuel with
    | 0 => none
    | fuel + 1 =>
      let data := reads i
      chunkLoopConsecutive reads fuel (i + 1) (if data = [] then b + 1 else 0)

/-- Number of empty chunks among the first `n` reads. -/
def countEmpties (reads : Nat → List Nat) (n : Nat) : Nat :=
  ((List.range n).filter (fun i => reads i = [])).length

/-! ## Lyrics timestamps in `Track.get_song_lyrics` (track.py 171-181) -/

/-- Python `str.zfill(2)`: pad on the left with zeros to length 2. -/
def zfill2 (s : String) : String :=
  if 2 ≤ s.length then s else String.mk (List.replicate (2 - s.length) '0') ++ s

/-- Embedding of the LINE_SYNCED timestamp computation for a start time
of `t` milliseconds:
`str(floor(t/60000)).zfill(2)`, `str(floor((t%60000)/1000)).zfill(2)`,
`str(floor(t%1000))[:2].zfill(2)` assembled as `[mm:ss.cc]`. -/
def formatTimestamp (t : Nat) : String :=
  let tsMinutes := zfill2 (Nat.repr (t / 60000))
  let tsSeconds := zfill2 (Nat.repr ((t % 60000) / 1000))
  let tsMillis := zfill2 ((Nat.repr (t % 1000)).take 2)
  "[" ++ tsMinutes ++ ":" ++ tsSeconds ++ "." ++ tsMillis ++ "]"

/-- Timestamp computation as the claim words it: the centisecond field
is the truncation `floor((t mod 1000) / 10)`, zero-padded to two
digits.  Stated from the claim for comparison with `formatTimestamp`. -/
def formatTimestampCentis (t : Nat) : String :=
  let tsMinutes := zfill2 (Nat.repr (t / 60000))
  let tsSeconds := zfill2 (Nat.repr ((t % 60000) / 1000))
  let tsCentis := zfill2 (Nat.repr ((t % 1000) / 10))
  "[" ++ tsMinutes ++ ":" ++ tsSeconds ++ "." ++ tsCentis ++ "]"

/-! ## Config values and the lyrics flag (track.py 274-283) -/

/-- A configuration value as Python sees it: a bool, a string, or any
other type (for which both `isinstance` checks fail). -/
inductive CVal
  | bool (b : Bool)
  | str (s : String)
  | other
deriving DecidableEq, Repr

/-- Python's `str.lower()` on the ASCII configuration strings the
source compares against, as a character-wise map. -/
def pyLower (s : String) : String :=
  ⟨s.data.map Char.toLower⟩

/-- Embedding of the `download_lyrics` flag computation (track.py
274-283): `flag = True`; `if isinstance(v, bool) and v: flag = v`;
`elif isinstance(v, str) and v.lower() == 'true': flag = True`;
`elif isinstance(v, str) and v.lower() == 'false': flag = False`. -/
def downloadLyricsFlag (v : CVal) : Bool :=
  match v with
  | .bool b => if b then b else true
  | .str s =>
    if pyLower s = "true" then true
    else if pyLower s = "false" then false
    else true
  | .other => true

/-! ## `Track.convert_raw_to_audio` (track.py 186-222) -/

/-- A file path, split as stem and extension so that Python's
`Path.with_suffix` (which replaces the extension) can be embedded. -/
structure MPath where
  stem : String
  ext : String
deriving DecidableEq, Repr

/-- Python `path.with_suffix(e)`. -/
def MPath.withSuffix (p : MPath) (e : String) : MPath :=
  { stem := p.stem, ext := e }

/-- The format-to-codec table `Constants.SPOTIFY_CODEC_MAP`
(constants.py 91-99). -/
def SPOTIFY_CODEC_MAP : List (String × String) :=
  [("aac", "aac"), ("fdk_aac", "libfdk_aac"), ("m4a", "aac"),
   ("mp3", "libmp3lame"), ("ogg", "copy"), ("opus", "libopus"),
   ("vorbis", "copy")]

/-- `Constants.SPOTIFY_CODEC_MAP.get(download_format.lower(), "copy")`. -/
def codecFor (downloadFormat : String) : String :=
  (SPOTIFY_CODEC_MAP.lookup (pyLower downloadFormat)).getD "copy"

/-- The configured `downloader.quality` value; the source indexes the
bitrate dict directly with it, so only these four values avoid a
`KeyError` in `convert_raw_to_audio`. -/
inductive Quality
  | auto
  | normal
  | high
  | veryHigh
deriving DecidableEq, Repr

/-- The quality-to-bitrate table of `convert_raw_to_audio` (track.py
195-201); the `auto` entry depends on `Downloader.check_premium()`. -/
def bitrateFor (q : Quality) (premium : Bool) : String :=
  match q with
  | .auto => if premium then "320k" else "160k"
  | .normal => "96k"
  | .high => "160k"
  | .veryHigh => "320k"

/-- Filesystem effects and transcoder interactions of
`convert_raw_to_audio`, in program order. -/
inductive ConvAction
  | move (src dst : MPath)
  | buildOutputSpec (codec : String) (bitrate : Option String)
  | runTranscoder (codec : String)
  | unlinkTemp (p : MPath)
deriving DecidableEq, Repr

/-- Result of `convert_raw_to_audio`: the files present afterwards and
the actions it performed. -/
structure ConvResult where
  files : List MPath
  actions : List ConvAction
deriving DecidableEq, Repr

/-- Embedding of `Track.convert_raw_to_audio` (track.py 186-222) on a
filesystem `files` (the list of existing paths).  Steps, exactly as the
source:
`shutil.move(source, source.with_suffix('.temp'))`; codec from
`SPOTIFY_CODEC_MAP` with default `"copy"`; a bitrate only when the
codec is not `"copy"`; then `ffmpeg.input(...)` and `ffmpeg.output(...)`
— which only build a stream specification: `ffmpeg.run` is never
invoked, so no transcoder process starts, no output file is produced,
and the `except ffmpeg.Error` handler is unreachable — and finally
`temp_file_path.unlink(missing_ok=True)`. -/
def convert_raw_to_audio (files : List MPath) (sourceFilePath : MPath)
    (downloadFormat : String) (q : Quality) (premium : Bool) : ConvResult :=
  let tempFilePath := sourceFilePath.withSuffix "temp"
  let files1 := tempFilePath :: files.erase sourceFilePath
  let codec := codecFor downloadFormat
  let bitrate := if codec ≠ "copy" then some (bitrateFor q premium) else none
  let files2 := files1.erase tempFilePath
  { files := files2,
    actions := [.move sourceFilePath tempFilePath,
                .buildOutputSpec codec bitrate,
                .unlinkTemp tempFilePath] }

/-! ## `Track.download_track` (track.py 224-309) and the ledger (db.py) -/

/-- A row of the `downloaded_songs` table (db.py 27-44), as
`create_downloaded_song` fills it in. -/
structure LedgerEntry where
  songId : String
  accountId : Nat
  path : MPath
deriving DecidableEq, Repr

/-- Embedding of `Database.get_downloaded_songs_by_id` (db.py 104-108):
first row whose `song_id` equals the argument, over all accounts. -/
def get_downloaded_songs_by_id (ledger : List LedgerEntry) (songId : String) :
    Option LedgerEntry :=
  ledger.find? (fun e => e.songId = songId)

/-- Rows of `ledger` for song `songId` under account `acct`. -/
def ledgerEntriesFor (ledger : List LedgerEntry) (songId : String) (acct : Nat) :
    List LedgerEntry :=
  ledger.filter (fun e => e.songId = songId ∧ e.accountId = acct)

/-- Mutable state the pipeline touches: the ledger table and the set of
files on disk. -/
structure St where
  ledger : List LedgerEntry
  files : List MPath
deriving DecidableEq, Repr

/-- The metadata `get_song_info` yields for a track id, reduced to the
fields `download_track` branches on: the scraped (canonical) id, the
playability flag, and the target file path derived from artist, album,
track number, name and the extension map. -/
structure Meta where
  scrapedId : String
  isPlayable : Bool
  path : MPath
deriving DecidableEq, Repr

/-- Outcome of the lyrics stage for a track: `ok` (lyrics fetched and
the `.lrc` file written), `valueError` (a `ValueError`, caught by the
`except ValueError` handler in `download_track`), or `hardError` (any
other exception, e.g. the `KeyError` that `invoke_url` raises on an
empty payload — not caught by that handler, so it aborts the job). -/
inductive LyricsOutcome
  | ok
  | valueError
  | hardError
deriving DecidableEq, Repr

/-- Environment of one `download_track` run: responses of the external
collaborators and the configuration, all fixed for the run. -/
structure Env where
  meta : String → Option Meta
  streamOk : Bool
  account : Nat
  lyricsConfig : CVal
  lyricsOutcome : LyricsOutcome
  format : String
  quality : Quality
  premium : Bool

/-- Modelled from the spec: `download_track` records the ledger entry
against "the current account" (spec section 4.6).  The attribute
`Downloader.account` it reads is set by application entry code outside
the embedded modules, so it is modelled as an environment field holding
the current account's id. -/
def downloaderAccount (env : Env) : Nat :=
  env.account

/-- Observable actions of one `download_track` run, in program order. -/
inductive Action
  | fetchMeta (id : String)
  | skipNotPlayable (id : String)
  | skipAlreadyDownloaded (id : String)
  | streamRequest (id : String)
  | rawDownload (path : MPath)
  | lyricsFetch (id : String)
  | convert (path : MPath)
  | ledgerInsert (id : String) (acct : Nat)
  | abort
deriving DecidableEq, Repr

/-- Embedding of `Track.download_track` (track.py 224-309).  Control
flow, exactly as the source: metadata fetch (failure logs and
returns); not-playable check; dedup check
`Database.get_downloaded_songs_by_id(track_id) is not None or
file_path.exists()` against the *requested* id; canonical id
substitution `track_id = scraped_song_id`; content stream request and
the chunked raw write to `file_path`; the optional lyrics stage (a
`ValueError` is caught, any other exception propagates to the outer
handler, which logs and returns); `convert_raw_to_audio`; tagging
(failures caught, no modelled state); and finally
`Database.create_downloaded_song(track_id, Downloader.account,
str(file_path))` with the substituted id. -/
def download_track (env : Env) (st : St) (trackId : String) : St × List Action :=
  match env.meta trackId with
  | none => (st, [.fetchMeta trackId, .abort])
  | some m =>
    if m.isPlayable = false then
      (st, [.fetchMeta trackId, .skipNotPlayable trackId])
    else if (get_downloaded_songs_by_id st.ledger trackId).isSome
        || m.path ∈ st.files then
      (st, [.fetchMeta trackId, .skipAlreadyDownloaded trackId])
    else
      let tid := m.scrapedId
      if env.streamOk = false then
        (st, [.fetchMeta trackId, .streamRequest tid, .abort])
      else
        let files1 := m.path :: st.files
        let lyricsOn := downloadLyricsFlag env.lyricsConfig
        if lyricsOn ∧ env.lyricsOutcome = .hardError then
          ({ st with files := files1 },
           [.fetchMeta trackId, .streamRequest tid, .rawDownload m.path,
            .lyricsFetch tid, .abort])
        else
          let files2 :=
            if lyricsOn ∧ env.lyricsOutcome = .ok then
              m.path.withSuffix "lrc" :: files1
            else files1
          let conv := convert_raw_to_audio files2 m.path env.format env.quality
            env.premium
          let acct := downloaderAccount env
          ({ ledger := ⟨tid, acct, m.path⟩ :: st.ledger, files := conv.files },
           [.fetchMeta trackId, .streamRequest tid, .rawDownload m.path]
             ++ (if lyricsOn then [Action.lyricsFetch tid] else [])
             ++ [.convert m.path, .ledgerInsert tid acct])

/-! ## `Downloader.login` (downloader.py 26-115) -/

/-- A row of the `accounts` table, as far as `login` reads it. -/
structure StoredAccount where
  userName : String
deriving DecidableEq, Repr

/-- Observable actions of one `login` run, in program order. -/
inductive LoginAction
  | tryStored (user : String)
  | deleteAccount (user : String)
  | oauthAttempt (i : Nat)
  | createAccount
  | loginFailure
deriving DecidableEq, Repr

/-- Environment of one `login` run. `stored` is the row
`Database.get_account_by_user_name` returns; `storedLoginOk` is whether
`Session.Builder().stored(...).create()` succeeds; `oauthCredFile i` is
whether `credentials.json` exists after OAuth attempt `i`. -/
structure LoginEnv where
  stored : Option StoredAccount
  storedLoginOk : Bool
  loginRetryAttempts : Nat
  oauthCredFile : Nat → Bool

/-- Embedding of the interactive OAuth loop of `login` (downloader.py
76-111).  The `finally` block runs on every path through an attempt
(success, `MercuryException` passed, `ConnectionError` handled) and its
`break`/`continue` decides the iteration: if `credentials.json` exists
the account is persisted and the loop breaks, otherwise the loop
continues with the next attempt.  Returns the actions and whether a
session was obtained. -/
def oauthLoop (credFile : Nat → Bool) : Nat → Nat → List LoginAction × Bool
  | _i, 0 => ([], false)
  | i, remaining + 1 =>
    if credFile i then
      ([.oauthAttempt i, .createAccount], true)
    else
      let r := oauthLoop credFile (i + 1) remaining
      (.oauthAttempt i :: r.1, r.2)

/-- Embedding of `Downloader.login` (downloader.py 26-115).  With a
username whose stored account exists: build a session from the stored
credential and return on success; on any exception delete the stored
account and fall through — once, with no loop around the stored path —
to the OAuth retry loop.  Exhausting the loop raises `ConnectionError`
(the `for`/`else`), recorded as `loginFailure`. -/
def login (env : LoginEnv) (userName : Option String) : List LoginAction × Bool :=
  let pre : List LoginAction × Bool :=
    match userName, env.stored with
    | some _, some acct =>
      if env.storedLoginOk then ([.tryStored acct.userName], true)
      else ([.tryStored acct.userName, .deleteAccount acct.userName], false)
    | some _, none => ([], false)
    | none, _ => ([], false)
  if pre.2 then
    pre
  else
    let r := oauthLoop env.oauthCredFile 0 env.loginRetryAttempts
    (pre.1 ++ r.1 ++ (if r.2 then [] else [.loginFailure]), r.2)

/-! ## Helper predicates and concrete environments used in the theorems -/

/-- Whether a conversion action runs the transcoder. -/
def ConvAction.isRunTranscoder : ConvAction → Bool
  | .runTranscoder _ => true
  | _ => false

/-- Whether a login action is an attempt on the stored-credential path. -/
def LoginAction.isTryStored : LoginAction → Bool
  | .tryStored _ => true
  | _ => false

/-- Whether a login action deletes a stored account. -/
def LoginAction.isDeleteAccount : LoginAction → Bool
  | .deleteAccount _ => true
  | _ => false

/-- Concrete run of `download_track` in which the metadata response
resolves a canonical id (`"SCRAPED"`) different from the requested id
(`"TRACKID"`): playable, stream available, lyrics disabled via the
string `"false"`, format `ogg`, account id 7. -/
def c1Env : Env :=
  { meta := fun id =>
      if id = "TRACKID" then
        some ⟨"SCRAPED", true, ⟨"Artist/Album/1 - Song", "ogg"⟩⟩
      else none,
    streamOk := true, account := 7, lyricsConfig := .str "false",
    lyricsOutcome := .ok, format := "ogg", quality := .auto, premium := false }

/-- Concrete run of `download_track` whose requested id equals the
canonical id. -/
def c1EnvSame : Env :=
  { meta := fun id =>
      if id = "TRACKID" then
        some ⟨"TRACKID", true, ⟨"Artist/Album/1 - Song", "ogg"⟩⟩
      else none,
    streamOk := true, account := 7, lyricsConfig := .str "false",
    lyricsOutcome := .ok, format := "ogg", quality := .auto, premium := false }

/-- Concrete run for the canonical-id-substitution witness: the
requested id `"old"` resolves to the canonical id `"new"`. -/
def c6Env : Env :=
  { meta := fun id =>
      if id = "old" then some ⟨"new", true, ⟨"A/B/2 - T", "ogg"⟩⟩ else none,
    streamOk := true, account := 3, lyricsConfig := .bool true,
    lyricsOutcome := .valueError, format := "mp3", quality := .normal,
    premium := false }

/-- Concrete login run: a stored account for `"alice"` exists, building
a session from it fails, and the second OAuth attempt succeeds. -/
def c8Env : LoginEnv :=
  { stored := some ⟨"alice"⟩, storedLoginOk := false,
    loginRetryAttempts := 3, oauthCredFile := fun i => i = 1 }

/-! ## Theorems -/

/-- Helper: on a run of responses whose parsed payloads are all
well-formed error objects, `invoke_url` starting at try `t` with
`t + n + 1` configured attempts makes `n + 1` calls, sleeps 5 seconds
between consecutive calls, and returns the last payload. -/
lemma invoke_url_errorObj_run (resp : Nat → ParseResult) :
    ∀ n t : Nat,
      (∀ i, i ≤ n → ∃ s m, parsePayload (resp (t + i)) = .errorObj s m) →
      invoke_url resp (t + n + 1) t =
        { calls := n + 1, sleeps := List.replicate n 5,
          outcome := .ok (parsePayload (resp (t + n))) } := by
  intro n
  induction n with
  | zero =>
    intro t h
    obtain ⟨s, m, hsm⟩ := h 0 (Nat.le_refl 0)
    rw [Nat.add_zero] at hsm
    rw [invoke_url, hsm]
    simp [Payload.needsRetry, Payload.isFalsy, Payload.hasError,
      Payload.errStatusMsg, Nat.add_zero, hsm]
  | succ n ih =>
    intro t h
    obtain ⟨s, m, hsm⟩ := h 0 (Nat.zero_le _)
    rw [Nat.add_zero] at hsm
    have hrec := ih (t + 1) (fun i hi => by
      have hh := h (i + 1) (by omega)
      have he : t + (i + 1) = t + 1 + i := by omega
      rwa [he] at hh)
    have harg : t + 1 + n + 1 = t + (n + 1) + 1 := by omega
    have hidx : t + 1 + n = t + (n + 1) := by omega
    rw [harg, hidx] at hrec
    rw [invoke_url, hsm]
    simp [Payload.needsRetry, Payload.isFalsy, Payload.hasError,
      Payload.errStatusMsg, hrec, List.replicate_succ,
      show t + 1 < t + (n + 1) + 1 by omega]

/-- Claim C2 (amended): if every parsed payload of the run carries a
well-formed `error` object (one supporting the `['error']['status']`
and `['error']['message']` lookups), then `invoke_url` with
`retry_attempts = ra ≥ 1` makes exactly `ra` calls, sleeping a fixed 5
seconds before each of the `ra - 1` retries, and returns the last error
payload without raising.  (The original claim extends this to empty
payloads, where the code instead raises `KeyError`; see the
counterexample.) -/
theorem invoke_url_retry_bound (resp : Nat → ParseResult) (ra : Nat)
    (h1 : 1 ≤ ra)
    (h2 : ∀ i, i < ra → ∃ s m, parsePayload (resp i) = .errorObj s m) :
    invoke_url resp ra 0 =
      { calls := ra, sleeps := List.replicate (ra - 1) 5,
        outcome := .ok (parsePayload (resp (ra - 1))) } := by
  obtain ⟨n, rfl⟩ : ∃ n, ra = n + 1 := ⟨ra - 1, by omega⟩
  have hrun := invoke_url_errorObj_run resp n 0 (fun i hi => by
    have := h2 i (by omega)
    simpa using this)
  simpa using hrun

/-- Claim C2 witness: three permanently erroring responses with
`retry_attempts = 3` give exactly 3 calls, two 5-second sleeps, and the
last error payload returned. -/
theorem invoke_url_retry_bound_witness :
    invoke_url (fun _ => .ok (.errorObj "429" "too many requests")) 3 0 =
      { calls := 3, sleeps := [5, 5],
        outcome := .ok (.errorObj "429" "too many requests") } := by
  have h := invoke_url_retry_bound (fun _ => .ok (.errorObj "429" "too many requests"))
    3 (by omega) (fun i _ => ⟨"429", "too many requests", rfl⟩)
  simpa using h

/-- Claim C2 counterexample: on a response sequence whose parsed
payloads are all empty (a falsy dict with no `error` key), `invoke_url`
with `retry_attempts = 3` does not make 3 calls and does not return the
payload: the log interpolation `response_json['error']['status']`
raises `KeyError` on the very first call. -/
theorem invoke_url_empty_payload_raises :
    invoke_url (fun _ => .ok .empty) 3 0 =
      { calls := 1, sleeps := [], outcome := .error .keyError } := by
  rw [invoke_url]
  simp [parsePayload, Payload.needsRetry, Payload.isFalsy, Payload.hasError,
    Payload.errStatusMsg]

/-- Claim C9: `invoke_url_with_params` issues exactly one HTTP request
per call with no retry and no backoff sleep, whatever the payload; it
returns the parsed payload unchanged, and a JSON parse failure
propagates as an exception.  By contrast, `invoke_url` converts a parse
failure into a synthesized error payload and retries on it (3 calls
when `retry_attempts = 3`). -/
theorem invoke_url_with_params_single_call :
    (∀ r : ParseResult, (invoke_url_with_params r).calls = 1 ∧
      (invoke_url_with_params r).sleeps = []) ∧
    (∀ p : Payload, (invoke_url_with_params (.ok p)).outcome = .ok p) ∧
    (invoke_url_with_params .jsonDecodeError).outcome = .error .jsonDecodeError ∧
    parsePayload .jsonDecodeError =
      .errorObj "unknown" "received an empty response" ∧
    (invoke_url (fun _ => .jsonDecodeError) 3 0).calls = 3 := by
  refine ⟨fun r => ?_, fun p => rfl, rfl, rfl, ?_⟩
  · cases r <;> exact ⟨rfl, rfl⟩
  · rw [invoke_url, invoke_url, invoke_url]
    simp [parsePayload, Payload.needsRetry, Payload.isFalsy, Payload.hasError,
      Payload.errStatusMsg]

/-- Helper: run of `savedTracksLoop` from offset `50 * j` when,
relative to `j`, the first short page is the `k`-th one. -/
lemma savedTracksLoop_run {α : Type} (pages : Nat → Nat → List α) :
    ∀ k j fuel : Nat, k < fuel →
      (∀ i, i < k → 50 ≤ (pages 50 (50 * (j + i))).length) →
      (pages 50 (50 * (j + k))).length < 50 →
      savedTracksLoop pages (50 * j) fuel =
        some ((List.range (k + 1)).map (fun i => (50, 50 * (j + i))),
          ((List.range (k + 1)).map (fun i => pages 50 (50 * (j + i)))).flatten) := by
  intro k
  induction k with
  | zero =>
    intro j fuel hfuel _hlong hshort
    obtain ⟨f, rfl⟩ : ∃ f, fuel = f + 1 := ⟨fuel - 1, by omega⟩
    rw [Nat.add_zero] at hshort
    simp [savedTracksLoop, hshort, List.range_succ]
  | succ k ih =>
    intro j fuel hfuel hlong hshort
    obtain ⟨f, rfl⟩ : ∃ f, fuel = f + 1 := ⟨fuel - 1, by omega⟩
    have hlong0 : 50 ≤ (pages 50 (50 * j)).length := by
      have := hlong 0 (Nat.succ_pos _)
      simpa using this
    have hrec := ih (j + 1) f (by omega)
      (fun i hi => by
        have := hlong (i + 1) (by omega)
        have he : j + (i + 1) = j + 1 + i := by omega
        rwa [he] at this)
      (by
        have he : j + 1 + k = j + (k + 1) := by omega
        rwa [he])
    have hoff : 50 * j + 50 = 50 * (j + 1) := by ring
    have hmapr : (List.range (k + 1 + 1)).map (fun i => (50, 50 * (j + i))) =
        (50, 50 * j) :: (List.range (k + 1)).map (fun i => (50, 50 * (j + 1 + i))) := by
      rw [List.range_succ_eq_map, List.map_cons, List.map_map]
      have htail : List.map ((fun i => ((50 : Nat), 50 * (j + i))) ∘ Nat.succ)
          (List.range (k + 1)) =
          List.map (fun i => ((50 : Nat), 50 * (j + 1 + i))) (List.range (k + 1)) :=
        List.map_congr_left (fun i _hi => by
          show ((50 : Nat), 50 * (j + (i + 1))) = ((50 : Nat), 50 * (j + 1 + i))
          have he : j + (i + 1) = j + 1 + i := by omega
          rw [he])
      rw [htail]
      simp
    have hmaps : (List.range (k + 1 + 1)).map (fun i => pages 50 (50 * (j + i))) =
        pages 50 (50 * j) ::
          (List.range (k + 1)).map (fun i => pages 50 (50 * (j + 1 + i))) := by
      rw [List.range_succ_eq_map, List.map_cons, List.map_map]
      have htail : List.map ((fun i => pages 50 (50 * (j + i))) ∘ Nat.succ)
          (List.range (k + 1)) =
          List.map (fun i => pages 50 (50 * (j + 1 + i))) (List.range (k + 1)) :=
        List.map_congr_left (fun i _hi => by
          show pages 50 (50 * (j + (i + 1))) = pages 50 (50 * (j + 1 + i))
          have he : j + (i + 1) = j + 1 + i := by omega
          rw [he])
      rw [htail]
      simp
    rw [savedTracksLoop]
    simp only [Nat.not_lt.mpr hlong0, if_false, hoff, hrec, hmapr, hmaps]
    simp

/-- Claim C3: for every sequence of pages, if the pages at offsets
`0, 50, ..., 50*(k-1)` all have at least 50 items and the page at
offset `50*k` has fewer than 50 (so the `k`-th page is the first short
one), then `get_user_saved_tracks` issues exactly the requests
`(limit 50, offset 0), (50, 50), ..., (50, 50*k)` — offsets increasing
by 50 from 0, terminating exactly at the first short page — and
returns the concatenation of the items of all fetched pages in order. -/
theorem get_user_saved_tracks_pagination {α : Type} (pages : Nat → Nat → List α)
    (k fuel : Nat) (hfuel : k < fuel)
    (hlong : ∀ i, i < k → 50 ≤ (pages 50 (50 * i)).length)
    (hshort : (pages 50 (50 * k)).length < 50) :
    get_user_saved_tracks pages fuel =
      some ((List.range (k + 1)).map (fun i => (50, 50 * i)),
        ((List.range (k + 1)).map (fun i => pages 50 (50 * i))).flatten) := by
  have h := savedTracksLoop_run pages k 0 fuel hfuel
    (fun i hi => by simpa using hlong i hi)
    (by simpa using hshort)
  simpa [get_user_saved_tracks] using h

/-- Claim C3 witness: a single empty first page terminates at once with
the single request `(50, 0)` and no items. -/
theorem get_user_saved_tracks_pagination_witness :
    get_user_saved_tracks (α := Nat) (fun _ _ => []) 1 = some ([(50, 0)], []) := by
  have h := get_user_saved_tracks_pagination (α := Nat) (fun _ _ => []) 0 1
    (Nat.zero_lt_one) (fun i hi => absurd hi (Nat.not_lt_zero i)) (by simp)
  simpa using h

/-- Helper: one more read adds one to the empty count exactly when that
read is empty. -/
lemma countEmpties_succ (reads : Nat → List Nat) (n : Nat) :
    countEmpties reads (n + 1) =
      countEmpties reads n + (if reads n = [] then 1 else 0) := by
  unfold countEmpties
  rw [List.range_succ, List.filter_append, List.length_append]
  by_cases h : reads n = [] <;> simp [h]

/-- Helper: the empty count is monotone in the number of reads. -/
lemma countEmpties_mono (reads : Nat → List Nat) :
    ∀ i j : Nat, i ≤ j → countEmpties reads i ≤ countEmpties reads j := by
  intro i j hij
  induction j with
  | zero =>
    have : i = 0 := by omega
    simp [this]
  | succ j ihj =>
    rcases Nat.lt_or_ge i (j + 1) with hlt | hge
    · have h1 := ihj (by omega)
      have h2 := countEmpties_succ reads j
      omega
    · have : i = j + 1 := by omega
      simp [this]

/-- Helper: the chunk loop, entered at read index `i` with the counter
equal to the number of empties seen so far, stops right after read `m`,
the read at which the cumulative empty count reaches 5. -/
lemma chunkLoop_run (reads : Nat → List Nat) (m : Nat)
    (hm5 : countEmpties reads (m + 1) = 5) (hmE : reads m = []) :
    ∀ fuel i, i ≤ m → m < i + fuel →
      chunkLoop reads fuel i (countEmpties reads i) = some (m + 1) := by
  have hm4 : countEmpties reads m = 4 := by
    have := countEmpties_succ reads m
    rw [if_pos hmE] at this
    omega
  intro fuel
  induction fuel with
  | zero =>
    intro i hi hfuel
    omega
  | succ fuel ihf =>
    intro i hi hfuel
    have hle : countEmpties reads i ≤ 4 := by
      have := countEmpties_mono reads i m hi
      omega
    rw [chunkLoop, if_neg (by omega)]
    have hstep : countEmpties reads i + (if reads i = [] then 1 else 0) =
        countEmpties reads (i + 1) := (countEmpties_succ reads i).symm
    show chunkLoop reads fuel (i + 1)
      (countEmpties reads i + if reads i = [] then 1 else 0) = some (m + 1)
    rw [hstep]
    rcases Nat.lt_or_ge i m with hlt | hge
    · exact ihf (i + 1) (by omega) (by omega)
    · have hieq : i = m := by omega
      subst hieq
      rw [hm5]
      rw [chunkLoop.eq_def, if_pos (by omega)]

/-- Claim C4 (amended): the raw-download loop counts empty reads
cumulatively — the counter is incremented on an empty read and never
reset — so it terminates exactly at the fifth empty read overall,
whether or not the empty reads are consecutive: if read `m` is the
read at which the cumulative number of empty reads reaches 5, the loop
performs exactly the reads `0, ..., m` and stops.  (The original claim
says the count is of *consecutive* empty reads and is reset by a
non-empty read; see the counterexample.) -/
theorem chunkLoop_stops_at_fifth_empty (reads : Nat → List Nat) (m fuel : Nat)
    (hm5 : countEmpties reads (m + 1) = 5) (hmE : reads m = [])
    (hfuel : m < fuel) :
    chunkLoop reads fuel 0 0 = some (m + 1) := by
  have h := chunkLoop_run reads m hm5 hmE fuel 0 (Nat.zero_le m) (by omega)
  have h0 : countEmpties reads 0 = 0 := by simp [countEmpties]
  rwa [h0] at h

/-- Claim C4 witness: a stream returning only empty chunks stops after
exactly 5 reads. -/
theorem chunkLoop_stops_at_fifth_empty_witness :
    chunkLoop (fun _ => ([] : List Nat)) 10 0 0 = some 5 := by
  have h := chunkLoop_stops_at_fifth_empty (fun _ => ([] : List Nat)) 4 10
    (by decide) rfl (by omega)
  simpa using h

/-- Claim C4 counterexample: with reads alternating empty, non-empty,
empty, ... the code loop stops after 9 reads — the 5 empty reads that
stopped it were all separated by non-empty reads, so they did
accumulate toward the bound — while the loop the claim describes
(consecutive count, reset on a non-empty read) is still running after
100 reads. -/
theorem chunkLoop_counts_nonconsecutive_empties :
    chunkLoop (fun i => if i % 2 = 0 then [] else [7]) 100 0 0 = some 9 ∧
    chunkLoopConsecutive (fun i => if i % 2 = 0 then [] else [7]) 100 0 0 = none := by
  exact ⟨by decide, by decide⟩

set_option maxHeartbeats 4000000 in
set_option maxRecDepth 10000 in
/-- Helper: for a three-digit number, the first two decimal digits are
its quotient by ten. -/
lemma take_two_repr : ∀ m < 1000, 100 ≤ m →
    (Nat.repr m).take 2 = Nat.repr (m / 10) := by decide

/-- Claim C7 (amended): the LINE_SYNCED timestamp field `cc` is the
decimal representation of `t mod 1000` truncated to its first two
characters and left-zero-padded to two digits — which coincides with
the truncated centiseconds `floor((t mod 1000) / 10)` whenever
`t mod 1000 ≥ 100`; in particular `t = 125340` renders as
`[02:05.34]`.  (For `t mod 1000 < 100` the two computations differ:
see the counterexample.) -/
theorem formatTimestamp_first_two_digits :
    (∀ t : Nat, 100 ≤ t % 1000 → formatTimestamp t = formatTimestampCentis t) ∧
    formatTimestamp 125340 = "[02:05.34]" := by
  constructor
  · intro t ht
    have hlt : t % 1000 < 1000 := Nat.mod_lt _ (by omega)
    have hkey := take_two_repr (t % 1000) hlt ht
    unfold formatTimestamp formatTimestampCentis
    rw [hkey]
  · decide

/-- Claim C7 witness: the spec's own example start time satisfies the
hypothesis and the two computations agree on it. -/
theorem formatTimestamp_first_two_digits_witness :
    formatTimestamp 125340 = formatTimestampCentis 125340 :=
  formatTimestamp_first_two_digits.1 125340 (by decide)

/-- Claim C7 counterexample: a line with `startTimeMs = 34` is rendered
by the code as `[00:00.34]`, while the centisecond formula of the
claim (`cc = floor((t mod 1000) / 10)` zero-padded) gives
`[00:00.03]`. -/
theorem formatTimestamp_not_centiseconds :
    formatTimestamp 34 = "[00:00.34]" ∧
    formatTimestampCentis 34 = "[00:00.03]" ∧
    formatTimestamp 34 ≠ formatTimestampCentis 34 :=
  ⟨by decide, by decide, by decide⟩

/-- Claim C5 (code bug): evaluating `convert_raw_to_audio` at a
concrete raw file shows the divergence.  For format `mp3` the codec
`libmp3lame` and bitrate `96k` (quality `normal`) are computed and put
into the output specification, and for an unmapped format (`flac`) the
codec defaults to a stream copy with no bitrate — as the claim says —
but no `runTranscoder` action ever occurs (`ffmpeg.run` is never
called), and afterwards no file remains: the raw file was renamed to
the `.temp` path and that path was unlinked, so no converted audio is
left at the original path. -/
theorem convert_raw_to_audio_never_transcodes :
    (convert_raw_to_audio [⟨"Music/Artist/Album/1 - Song", "ogg"⟩]
      ⟨"Music/Artist/Album/1 - Song", "ogg"⟩ "mp3" .normal false).files = [] ∧
    ((convert_raw_to_audio [⟨"Music/Artist/Album/1 - Song", "ogg"⟩]
      ⟨"Music/Artist/Album/1 - Song", "ogg"⟩ "mp3" .normal false).actions.filter
        ConvAction.isRunTranscoder) = [] ∧
    ConvAction.buildOutputSpec "libmp3lame" (some "96k") ∈
      (convert_raw_to_audio [⟨"Music/Artist/Album/1 - Song", "ogg"⟩]
        ⟨"Music/Artist/Album/1 - Song", "ogg"⟩ "mp3" .normal false).actions ∧
    (convert_raw_to_audio [⟨"Track", "ogg"⟩] ⟨"Track", "ogg"⟩ "flac" .normal
        false).actions =
      [.move ⟨"Track", "ogg"⟩ ⟨"Track", "temp"⟩, .buildOutputSpec "copy" none,
        .unlinkTemp ⟨"Track", "temp"⟩] := by
  refine ⟨by decide, by decide, by decide, by decide⟩

/-- Claim C10: the `download_lyrics` flag consulted by `download_track`
is `false` exactly when the configured value is a string whose
lower-casing is `"false"`; in particular the boolean `False` (for which
`isinstance(v, bool) and v` fails and no other branch matches) leaves
the flag at its default `True`, as does any other value. -/
theorem downloadLyricsFlag_false_only_for_string_false :
    (∀ v : CVal, downloadLyricsFlag v = false ↔
      ∃ s, v = .str s ∧ pyLower s = "false") ∧
    downloadLyricsFlag (.bool false) = true := by
  constructor
  · intro v
    constructor
    · intro h
      match v with
      | .bool b => cases b <;> simp [downloadLyricsFlag] at h
      | .str s =>
        refine ⟨s, rfl, ?_⟩
        by_cases h1 : pyLower s = "true"
        · simp [downloadLyricsFlag, h1] at h
        · by_cases h2 : pyLower s = "false"
          · exact h2
          · simp [downloadLyricsFlag, h1, h2] at h
      | .other => simp [downloadLyricsFlag] at h
    · rintro ⟨s, rfl, hs⟩
      simp [downloadLyricsFlag, hs]
  · rfl

/-- Helper: the OAuth loop never touches the stored-credential path:
its trace contains no `tryStored` and no `deleteAccount` action. -/
lemma oauthLoop_counts (c : Nat → Bool) :
    ∀ r i : Nat, ((oauthLoop c i r).1.countP LoginAction.isTryStored) = 0 ∧
      ((oauthLoop c i r).1.countP LoginAction.isDeleteAccount) = 0 := by
  intro r
  induction r with
  | zero =>
    intro i
    simp [oauthLoop]
  | succ r ih =>
    intro i
    by_cases h : c i
    · simp [oauthLoop, h, List.countP_cons, LoginAction.isTryStored,
        LoginAction.isDeleteAccount]
    · have hr := ih (i + 1)
      simp [oauthLoop, h, List.countP_cons, LoginAction.isTryStored,
        LoginAction.isDeleteAccount, hr.1, hr.2]

/-- Claim C8: when a stored credential exists for the requested
username and building a session from it fails, `login` deletes exactly
that stored account and falls back to the interactive OAuth flow
exactly once: the whole trace is the single stored attempt, the single
deletion, and then the OAuth loop (whose bounded retries contain no
further stored attempts and no further deletions) — so the stored path
is never retried and there is no loop between the two paths. -/
theorem login_stored_failure_single_fallback (env : LoginEnv) (u : String)
    (a : StoredAccount) (hstored : env.stored = some a)
    (hfail : env.storedLoginOk = false) :
    (login env (some u)).1 =
      .tryStored a.userName :: .deleteAccount a.userName ::
        ((oauthLoop env.oauthCredFile 0 env.loginRetryAttempts).1 ++
          (if (oauthLoop env.oauthCredFile 0 env.loginRetryAttempts).2 then []
           else [.loginFailure])) ∧
    (login env (some u)).1.countP LoginAction.isTryStored = 1 ∧
    (login env (some u)).1.countP LoginAction.isDeleteAccount = 1 := by
  have hshape : (login env (some u)).1 =
      .tryStored a.userName :: .deleteAccount a.userName ::
        ((oauthLoop env.oauthCredFile 0 env.loginRetryAttempts).1 ++
          (if (oauthLoop env.oauthCredFile 0 env.loginRetryAttempts).2 then []
           else [.loginFailure])) := by
    unfold login
    rw [hstored, hfail]
    simp
  refine ⟨hshape, ?_, ?_⟩ <;>
    rw [hshape] <;>
    rcases oauthLoop_counts env.oauthCredFile env.loginRetryAttempts 0 with ⟨h1, h2⟩ <;>
    cases hb : (oauthLoop env.oauthCredFile 0 env.loginRetryAttempts).2 <;>
    simp [List.countP_cons, List.countP_append, LoginAction.isTryStored,
      LoginAction.isDeleteAccount, h1, h2]

/-- Claim C8 witness: account `"alice"` stored, stored login fails, the
second OAuth attempt succeeds: the trace shows one stored attempt, one
deletion, then the interactive flow. -/
theorem login_stored_failure_single_fallback_witness :
    (login c8Env (some "alice")).1 =
      [.tryStored "alice", .deleteAccount "alice", .oauthAttempt 0,
        .oauthAttempt 1, .createAccount] ∧
    (login c8Env (some "alice")).1.countP LoginAction.isTryStored = 1 ∧
    (login c8Env (some "alice")).1.countP LoginAction.isDeleteAccount = 1 := by
  have h := login_stored_failure_single_fallback c8Env "alice" ⟨"alice"⟩ rfl rfl
  refine ⟨?_, h.2.1, h.2.2⟩
  rw [h.1]
  decide

/-- Claim C6: whenever the metadata response resolves a canonical
(scraped) id different from the requested id and the download is not
skipped (playable, no ledger entry, no existing file), the content
stream request of `download_track` is for the canonical id, and no
stream request for the originally requested id ever occurs — on every
branch (stream failure, lyrics failure, success). -/
theorem download_track_uses_canonical_id (env : Env) (st : St) (t : String)
    (m : Meta) (hmeta : env.meta t = some m) (hneq : m.scrapedId ≠ t)
    (hplay : m.isPlayable = true)
    (hledger : get_downloaded_songs_by_id st.ledger t = none)
    (hfile : m.path ∉ st.files) :
    Action.streamRequest m.scrapedId ∈ (download_track env st t).2 ∧
    Action.streamRequest t ∉ (download_track env st t).2 := by
  unfold download_track
  rw [hmeta]
  cases hstream : env.streamOk
  · simp [hplay, hledger, decide_eq_false hfile, hneq, Ne.symm hneq]
  · by_cases hly : downloadLyricsFlag env.lyricsConfig = true
    · by_cases hout : env.lyricsOutcome = .hardError
      · simp [hplay, hledger, decide_eq_false hfile, hly, hout, hneq,
          Ne.symm hneq]
      · simp [hplay, hledger, decide_eq_false hfile, hly, hout, hneq,
          Ne.symm hneq]
    · simp [hplay, hledger, decide_eq_false hfile, hly, hneq, Ne.symm hneq]

/-- Claim C6 witness: requested id `"old"`, canonical id `"new"`: the
stream is requested for `"new"` and never for `"old"`. -/
theorem download_track_uses_canonical_id_witness :
    Action.streamRequest "new" ∈ (download_track c6Env ⟨[], []⟩ "old").2 ∧
    Action.streamRequest "old" ∉ (download_track c6Env ⟨[], []⟩ "old").2 := by
  have h := download_track_uses_canonical_id c6Env ⟨[], []⟩ "old"
    ⟨"new", true, ⟨"A/B/2 - T", "ogg"⟩⟩ (by decide) (by decide) rfl rfl (by simp)
  exact h

/-- Helper: `ledgerEntriesFor` on a cons keeps the head exactly when it
matches the song id and the account. -/
lemma ledgerEntriesFor_cons (e : LedgerEntry) (l : List LedgerEntry)
    (sid : String) (acct : Nat) :
    ledgerEntriesFor (e :: l) sid acct =
      (if e.songId = sid ∧ e.accountId = acct then [e] else []) ++
        ledgerEntriesFor l sid acct := by
  unfold ledgerEntriesFor
  by_cases h : e.songId = sid ∧ e.accountId = acct
  · simp [List.filter_cons, h]
  · simp [List.filter_cons, h]

/-- Claim C1 (amended): for a track id `t` that the metadata resolves
to itself (requested id = canonical id), a first `download_track` run
from a state with no ledger entry for `t` and no file at the target
path performs the raw download and records exactly one ledger entry
for `t` under the current account, and a second run on the resulting
state is a pure no-op: it returns at the dedup check, changes nothing,
issues no stream request and no raw download — so at most one entry per
track id per account ever exists.  (The original claim does not
restrict `t` to equal its canonical id; when they differ the dedup
fails, see the counterexample.) -/
theorem download_track_dedup_idempotent (env : Env) (st : St) (t : String)
    (m : Meta) (hmeta : env.meta t = some m) (hsame : m.scrapedId = t)
    (hplay : m.isPlayable = true) (hstream : env.streamOk = true)
    (hlyr : downloadLyricsFlag env.lyricsConfig = false ∨
      env.lyricsOutcome ≠ .hardError)
    (hledger : get_downloaded_songs_by_id st.ledger t = none)
    (hfile : m.path ∉ st.files) :
    Action.rawDownload m.path ∈ (download_track env st t).2 ∧
    Action.ledgerInsert t (downloaderAccount env) ∈ (download_track env st t).2 ∧
    (ledgerEntriesFor (download_track env st t).1.ledger t
      (downloaderAccount env)).length = 1 ∧
    download_track env (download_track env st t).1 t =
      ((download_track env st t).1, [.fetchMeta t, .skipAlreadyDownloaded t]) ∧
    (ledgerEntriesFor (download_track env (download_track env st t).1 t).1.ledger
      t (downloaderAccount env)).length = 1 := by
  have hnone : ∀ e ∈ st.ledger, ¬(e.songId = t) := by
    have hl := hledger
    unfold get_downloaded_songs_by_id at hl
    intro e he
    have h3 := List.find?_eq_none.mp hl e he
    simpa using h3
  have hnex : ¬∃ x ∈ st.ledger, x.songId = t := by
    rintro ⟨x, hx, he⟩
    exact hnone x hx he
  have hfilter : ledgerEntriesFor st.ledger t (downloaderAccount env) = [] := by
    unfold ledgerEntriesFor
    refine List.filter_eq_nil_iff.mpr (fun e he => ?_)
    simp [hnone e he]
  have hsome : get_downloaded_songs_by_id
      (LedgerEntry.mk t (downloaderAccount env) m.path :: st.ledger) t =
      some (LedgerEntry.mk t (downloaderAccount env) m.path) := by
    unfold get_downloaded_songs_by_id
    exact List.find?_cons_of_pos _ (by simp)
  have hflag : downloadLyricsFlag env.lyricsConfig = false ∨
      (downloadLyricsFlag env.lyricsConfig = true ∧ env.lyricsOutcome = .ok) ∨
      (downloadLyricsFlag env.lyricsConfig = true ∧
        env.lyricsOutcome = .valueError) := by
    rcases hlyr with hfl | hhard
    · exact Or.inl hfl
    · cases hx : downloadLyricsFlag env.lyricsConfig
      · exact Or.inl rfl
      · cases ho : env.lyricsOutcome
        · exact Or.inr (Or.inl ⟨rfl, rfl⟩)
        · exact Or.inr (Or.inr ⟨rfl, rfl⟩)
        · exact absurd ho hhard
  rcases hflag with hfl | ⟨hfl, hout⟩ | ⟨hfl, hout⟩
  · have hfst : download_track env st t =
        (St.mk (LedgerEntry.mk t (downloaderAccount env) m.path :: st.ledger)
           (convert_raw_to_audio (m.path :: st.files) m.path env.format
             env.quality env.premium).files,
         [Action.fetchMeta t, Action.streamRequest t, Action.rawDownload m.path,
          Action.convert m.path,
          Action.ledgerInsert t (downloaderAccount env)]) := by
      simp [download_track, hmeta, hplay, hstream, hledger, hnex, hfile,
        hsame, hfl]
    have hsnd : download_track env (download_track env st t).1 t =
        ((download_track env st t).1,
          [.fetchMeta t, .skipAlreadyDownloaded t]) := by
      rw [hfst]
      unfold download_track
      rw [hmeta]
      simp [hplay, hsome]
    refine ⟨?_, ?_, ?_, hsnd, ?_⟩
    · rw [hfst]
      simp
    · rw [hfst]
      simp
    · rw [hfst]
      simp [ledgerEntriesFor_cons, hfilter]
    · rw [hsnd, hfst]
      simp [ledgerEntriesFor_cons, hfilter]
  · have hfst : download_track env st t =
        (St.mk (LedgerEntry.mk t (downloaderAccount env) m.path :: st.ledger)
           (convert_raw_to_audio
             (m.path.withSuffix "lrc" :: m.path :: st.files) m.path env.format
             env.quality env.premium).files,
         [Action.fetchMeta t, Action.streamRequest t, Action.rawDownload m.path,
          Action.lyricsFetch t, Action.convert m.path,
          Action.ledgerInsert t (downloaderAccount env)]) := by
      simp [download_track, hmeta, hplay, hstream, hledger, hnex, hfile,
        hsame, hfl, hout]
    have hsnd : download_track env (download_track env st t).1 t =
        ((download_track env st t).1,
          [.fetchMeta t, .skipAlreadyDownloaded t]) := by
      rw [hfst]
      unfold download_track
      rw [hmeta]
      simp [hplay, hsome]
    refine ⟨?_, ?_, ?_, hsnd, ?_⟩
    · rw [hfst]
      simp
    · rw [hfst]
      simp
    · rw [hfst]
      simp [ledgerEntriesFor_cons, hfilter]
    · rw [hsnd, hfst]
      simp [ledgerEntriesFor_cons, hfilter]
  · have hfst : download_track env st t =
        (St.mk (LedgerEntry.mk t (downloaderAccount env) m.path :: st.ledger)
           (convert_raw_to_audio (m.path :: st.files) m.path env.format
             env.quality env.premium).files,
         [Action.fetchMeta t, Action.streamRequest t, Action.rawDownload m.path,
          Action.lyricsFetch t, Action.convert m.path,
          Action.ledgerInsert t (downloaderAccount env)]) := by
      simp [download_track, hmeta, hplay, hstream, hledger, hnex, hfile,
        hsame, hfl, hout]
    have hsnd : download_track env (download_track env st t).1 t =
        ((download_track env st t).1,
          [.fetchMeta t, .skipAlreadyDownloaded t]) := by
      rw [hfst]
      unfold download_track
      rw [hmeta]
      simp [hplay, hsome]
    refine ⟨?_, ?_, ?_, hsnd, ?_⟩
    · rw [hfst]
      simp
    · rw [hfst]
      simp
    · rw [hfst]
      simp [ledgerEntriesFor_cons, hfilter]
    · rw [hsnd, hfst]
      simp [ledgerEntriesFor_cons, hfilter]

/-- Claim C1 witness: a concrete run whose requested id equals the
canonical id: the first call downloads and records one ledger entry,
the second call is a no-op skip leaving that single entry. -/
theorem download_track_dedup_idempotent_witness :
    Action.rawDownload ⟨"Artist/Album/1 - Song", "ogg"⟩ ∈
      (download_track c1EnvSame ⟨[], []⟩ "TRACKID").2 ∧
    Action.ledgerInsert "TRACKID" 7 ∈
      (download_track c1EnvSame ⟨[], []⟩ "TRACKID").2 ∧
    (ledgerEntriesFor (download_track c1EnvSame ⟨[], []⟩ "TRACKID").1.ledger
      "TRACKID" 7).length = 1 ∧
    download_track c1EnvSame (download_track c1EnvSame ⟨[], []⟩ "TRACKID").1
        "TRACKID" =
      ((download_track c1EnvSame ⟨[], []⟩ "TRACKID").1,
        [.fetchMeta "TRACKID", .skipAlreadyDownloaded "TRACKID"]) ∧
    (ledgerEntriesFor
      (download_track c1EnvSame (download_track c1EnvSame ⟨[], []⟩ "TRACKID").1
        "TRACKID").1.ledger "TRACKID" 7).length = 1 := by
  have h := download_track_dedup_idempotent c1EnvSame ⟨[], []⟩ "TRACKID"
    ⟨"TRACKID", true, ⟨"Artist/Album/1 - Song", "ogg"⟩⟩ (by decide) rfl rfl rfl
    (Or.inl (by decide)) rfl (by simp)
  exact h

/-- Claim C1 counterexample: when the requested id (`"TRACKID"`)
differs from the canonical id (`"SCRAPED"`), the first call succeeds —
raw file written and a ledger entry recorded — yet the second call with
the same id performs a second raw download instead of being a no-op,
leaves zero ledger entries for the requested id, and leaves two entries
for the canonical id under the same account, violating the at-most-one
invariant.  (The dedup check queries the ledger by the requested id and
checks the target file, but the entry was recorded under the canonical
id and no file remains at the target path.) -/
theorem download_track_dedup_counterexample :
    Action.rawDownload ⟨"Artist/Album/1 - Song", "ogg"⟩ ∈
      (download_track c1Env ⟨[], []⟩ "TRACKID").2 ∧
    Action.ledgerInsert "SCRAPED" 7 ∈
      (download_track c1Env ⟨[], []⟩ "TRACKID").2 ∧
    Action.rawDownload ⟨"Artist/Album/1 - Song", "ogg"⟩ ∈
      (download_track c1Env (download_track c1Env ⟨[], []⟩ "TRACKID").1
        "TRACKID").2 ∧
    (ledgerEntriesFor
      (download_track c1Env (download_track c1Env ⟨[], []⟩ "TRACKID").1
        "TRACKID").1.ledger "TRACKID" 7).length = 0 ∧
    (ledgerEntriesFor
      (download_track c1Env (download_track c1Env ⟨[], []⟩ "TRACKID").1
        "TRACKID").1.ledger "SCRAPED" 7).length = 2 := by
  refine ⟨by decide, by decide, by decide, by decide, by decide⟩

end Tunely
